import Mathlib

/-!
# Gesture / colour controlled LED matrix: verification development

Shallow embedding of `LED_CUBE/src/{i2c,color,gesture,led}.c`.

* The I2C1 peripheral is a state made of the bytes the addressed device will
  still deliver (`rx`) and the log of register accesses made so far (`trace`).
  A spin loop `while (!(I2C1->SR1 & FLAG));` is logged as one `waitSR1 FLAG`
  event.  The spin on `RXNE` ends only when a byte arrives: with no byte left
  the receiving function yields `none` (the C code spins forever).
* C integers are `Nat`/`Int` with the truncations of the C types written out
  (`% 256` for `uint8_t`, `% 65536` for `uint16_t`).
* `printf` output is not modelled.
-/

namespace LedCube

/-! ## i2c.c -/

/-- Status flags of `I2C1->SR1` the driver spins on. -/
inductive I2CFlag where
  | SB
  | ADDR
  | TXE
  | RXNE
  deriving DecidableEq

/-- One access to a register of the I2C1 peripheral. -/
inductive BusOp where
  /-- Source: `I2C1->CR1 |= I2C_CR1_START` -/
  | setSTART
  /-- Source: `I2C1->CR1 |= I2C_CR1_STOP` -/
  | setSTOP
  /-- Source: `I2C1->CR1 |= I2C_CR1_ACK` -/
  | setACK
  /-- Source: `I2C1->CR1 &= ~I2C_CR1_ACK` -/
  | clearACK
  /-- Source: `while (!(I2C1->SR1 & flag));` -/
  | waitSR1 (flag : I2CFlag)
  /-- Source: `(void)I2C1->SR2;` -/
  | readSR2
  /-- Source: `I2C1->DR = v` -/
  | writeDR (v : Nat)
  /-- Source: `... = I2C1->DR`, yielding `v` -/
  | readDR (v : Nat)
  deriving DecidableEq

/-- State of the I2C1 peripheral: bytes still to be received, accesses made so far. -/
structure I2C1 where
  rx : List Nat
  trace : List BusOp
  deriving DecidableEq

/-- Log one register access. -/
def emit (op : BusOp) (bus : I2C1) : I2C1 :=
  ⟨bus.rx, bus.trace ++ [op]⟩

/-- The pair `while(!(I2C1->SR1 & I2C_SR1_RXNE)); x = I2C1->DR;`:
blocks until the next byte has arrived, then reads the data register.
`none` when no byte ever arrives. -/
def recvDR (bus : I2C1) : Option (Nat × I2C1) :=
  match bus.rx with
  | [] => none
  | v :: rest => some (v, ⟨rest, bus.trace ++ [BusOp.waitSR1 I2CFlag.RXNE, BusOp.readDR v]⟩)

/-- Source: `void i2c_start()` -/
def i2c_start (bus : I2C1) : I2C1 :=
  let bus := emit BusOp.setSTART bus
  emit (BusOp.waitSR1 I2CFlag.SB) bus

/-- Source: `void i2c_stop()` -/
def i2c_stop (bus : I2C1) : I2C1 :=
  emit BusOp.setSTOP bus

/-- Source: `void write_i2c(uint8_t deviceAddr, uint8_t reg, uint8_t data)` -/
def write_i2c (deviceAddr reg data : Nat) (bus : I2C1) : I2C1 :=
  let bus := i2c_start bus
  let bus := emit (BusOp.writeDR ((deviceAddr <<< 1) ||| 0)) bus
  let bus := emit (BusOp.waitSR1 I2CFlag.ADDR) bus
  let bus := emit BusOp.readSR2 bus
  let bus := emit (BusOp.writeDR reg) bus
  let bus := emit (BusOp.waitSR1 I2CFlag.TXE) bus
  let bus := emit (BusOp.writeDR data) bus
  let bus := emit (BusOp.waitSR1 I2CFlag.TXE) bus
  i2c_stop bus

/-- Source: `uint8_t read_i2c(uint8_t deviceAddr, uint8_t reg)` -/
def read_i2c (deviceAddr reg : Nat) (bus : I2C1) : Option (Nat × I2C1) :=
  let bus := i2c_start bus
  let bus := emit (BusOp.writeDR ((deviceAddr <<< 1) ||| 0)) bus
  let bus := emit (BusOp.waitSR1 I2CFlag.ADDR) bus
  let bus := emit BusOp.readSR2 bus
  let bus := emit (BusOp.writeDR reg) bus
  let bus := emit (BusOp.waitSR1 I2CFlag.TXE) bus
  let bus := i2c_start bus
  let bus := emit (BusOp.writeDR ((deviceAddr <<< 1) ||| 1)) bus
  let bus := emit (BusOp.waitSR1 I2CFlag.ADDR) bus
  let bus := emit BusOp.readSR2 bus
  let bus := emit BusOp.clearACK bus
  let bus := emit BusOp.setSTOP bus
  match recvDR bus with
  | none => none
  | some (dr, bus) =>
    let data := dr % 256
    let bus := i2c_stop bus
    some (data, bus)

/-- Source: `uint16_t read_i2c_word(uint8_t deviceAddr, uint8_t reg)` -/
def read_i2c_word (deviceAddr reg : Nat) (bus : I2C1) : Option (Nat × I2C1) :=
  let bus := i2c_start bus
  let bus := emit (BusOp.writeDR ((deviceAddr <<< 1) ||| 0)) bus
  let bus := emit (BusOp.waitSR1 I2CFlag.ADDR) bus
  let bus := emit BusOp.readSR2 bus
  let bus := emit (BusOp.writeDR reg) bus
  let bus := emit (BusOp.waitSR1 I2CFlag.TXE) bus
  let bus := i2c_start bus
  let bus := emit (BusOp.writeDR ((deviceAddr <<< 1) ||| 1)) bus
  let bus := emit (BusOp.waitSR1 I2CFlag.ADDR) bus
  let bus := emit BusOp.readSR2 bus
  let bus := emit BusOp.setACK bus
  match recvDR bus with
  | none => none
  | some (dr1, bus) =>
    let data1 := dr1 % 256
    let bus := emit BusOp.clearACK bus
    let bus := emit BusOp.setSTOP bus
    match recvDR bus with
    | none => none
    | some (dr2, bus) =>
      let data2 := dr2 % 256
      let data := ((data2 <<< 8) ||| (data1 &&& 0xff)) % 65536
      some (data, bus)

/-! ## color.h / color.c -/

def TCS34725_ADDRESS : Nat := 0x29
def TCS34725_ENABLE : Nat := 0x00
def TCS34725_ATIME : Nat := 0x01
def TCS34725_CONTROL : Nat := 0x0F
def TCS34725_CDATAL : Nat := 0x14
def TCS34725_RDATAL : Nat := 0x16
def TCS34725_GDATAL : Nat := 0x18
def TCS34725_BDATAL : Nat := 0x1A

/-- Source: `typedef enum { RED, GREEN, BLUE, UNKNOWN } PredominantColor;` -/
inductive PredominantColor where
  | RED
  | GREEN
  | BLUE
  | UNKNOWN
  deriving DecidableEq

/-- Source: `PredominantColor TCS34725_ReadColorAndCheck()`.
Outer `none`: a bus read never completes.  Inner `none`: control reaches the
closing brace of the function without executing any `return` statement. -/
def TCS34725_ReadColorAndCheck (bus : I2C1) : Option (Option PredominantColor × I2C1) :=
  match read_i2c_word TCS34725_ADDRESS (0x80 ||| TCS34725_CDATAL) bus with
  | none => none
  | some (c, bus) =>
  match read_i2c_word TCS34725_ADDRESS (0x80 ||| TCS34725_RDATAL) bus with
  | none => none
  | some (r, bus) =>
  match read_i2c_word TCS34725_ADDRESS (0x80 ||| TCS34725_GDATAL) bus with
  | none => none
  | some (g, bus) =>
  match read_i2c_word TCS34725_ADDRESS (0x80 ||| TCS34725_BDATAL) bus with
  | none => none
  | some (b, bus) =>
    if c > 2000 then
      some (some PredominantColor.UNKNOWN, bus)
    else if r > g ∧ r > b then
      some (some PredominantColor.RED, bus)
    else if g > r ∧ g > b then
      some (some PredominantColor.GREEN, bus)
    else if b > r ∧ b > g then
      some (some PredominantColor.BLUE, bus)
    else
      some (none, bus)

/-- Bytes the colour sensor delivers for one sample: for each of clear, red,
green, blue (the order in which the registers are read) the low data register
first, then the high one. -/
def sampleBytes (clear red green blue : Nat) : List Nat :=
  [clear % 256, clear / 256, red % 256, red / 256,
   green % 256, green / 256, blue % 256, blue / 256]

/-- The classification returned when the sensor delivers the given sample. -/
def colourOf (clear red green blue : Nat) : Option (Option PredominantColor) :=
  (TCS34725_ReadColorAndCheck ⟨sampleBytes clear red green blue, []⟩).map Prod.fst

/-! ## gesture.h / gesture.c -/

def APDS9960_I2C_ADDRESS : Nat := 0x39
def APDS9960_GSTATUS : Nat := 0xAF
def APDS9960_ID : Nat := 0x92
def APDS9960_GFIFO_U : Nat := 0xFC
def APDS9960_GFIFO_D : Nat := 0xFD
def APDS9960_GFIFO_L : Nat := 0xFE
def APDS9960_GFIFO_R : Nat := 0xFF

/-- Source: `#define GESTURE_THRESHOLD 30` (an `int` constant). -/
def GESTURE_THRESHOLD : Int := 30

/-- Source: `typedef enum { GESTURE_NONE, GESTURE_UP, GESTURE_DOWN, GESTURE_LEFT, GESTURE_RIGHT } gesture_t;` -/
inductive gesture_t where
  | GESTURE_NONE
  | GESTURE_UP
  | GESTURE_DOWN
  | GESTURE_LEFT
  | GESTURE_RIGHT
  deriving DecidableEq

/-- The C library function `int abs(int)`. -/
def abs_int (x : Int) : Int :=
  if x < 0 then -x else x

/-- The loop `for (int i = 0; i < fifo_level; i++) { ... }` of `detect_gesture`,
with `n` iterations still to run.  `up_down_diff` and `left_right_diff` are
`uint8_t`: the `int` value of `up_down_diff + (u_data - d_data)` is converted
back to `uint8_t` on assignment.  Yields both accumulators after the loop. -/
def detect_gesture_loop : Nat → Nat → Nat → I2C1 → Option (Nat × Nat × I2C1)
  | 0, up_down_diff, left_right_diff, bus => some (up_down_diff, left_right_diff, bus)
  | n + 1, up_down_diff, left_right_diff, bus =>
    match read_i2c APDS9960_I2C_ADDRESS APDS9960_GFIFO_U bus with
    | none => none
    | some (u_data, bus) =>
    match read_i2c APDS9960_I2C_ADDRESS APDS9960_GFIFO_D bus with
    | none => none
    | some (d_data, bus) =>
    match read_i2c APDS9960_I2C_ADDRESS APDS9960_GFIFO_L bus with
    | none => none
    | some (l_data, bus) =>
    match read_i2c APDS9960_I2C_ADDRESS APDS9960_GFIFO_R bus with
    | none => none
    | some (r_data, bus) =>
      let up_down_diff :=
        (((up_down_diff : Int) + ((u_data : Int) - (d_data : Int))) % 256).toNat
      let left_right_diff :=
        (((left_right_diff : Int) + ((l_data : Int) - (r_data : Int))) % 256).toNat
      detect_gesture_loop n up_down_diff left_right_diff bus

/-- First part of `detect_gesture` (source lines 77-90): read the FIFO level,
then drain that many entries.  The locals `up_down_diff` and `left_right_diff`
are declared without an initialiser, so the values they hold when the loop
starts are not fixed by the program: they are parameters here. -/
def detect_gesture_accumulate (up_down_diff left_right_diff : Nat) (bus : I2C1) :
    Option (Nat × Nat × I2C1) :=
  match read_i2c APDS9960_I2C_ADDRESS 0xAE bus with
  | none => none
  | some (fifo_level, bus) => detect_gesture_loop fifo_level up_down_diff left_right_diff bus

/-- Second part of `detect_gesture` (source lines 92-107): the decision on the
two `uint8_t` accumulators, which are promoted to `int` in every comparison. -/
def detect_gesture_decide (up_down_diff left_right_diff : Nat) : gesture_t :=
  let ud : Int := (up_down_diff : Int)
  let lr : Int := (left_right_diff : Int)
  if abs_int lr > abs_int ud then
    if lr > GESTURE_THRESHOLD then
      gesture_t.GESTURE_RIGHT
    else if lr < -GESTURE_THRESHOLD then
      gesture_t.GESTURE_LEFT
    else
      gesture_t.GESTURE_NONE
  else
    if ud > GESTURE_THRESHOLD then
      gesture_t.GESTURE_UP
    else if ud < -GESTURE_THRESHOLD then
      gesture_t.GESTURE_DOWN
    else
      gesture_t.GESTURE_NONE

/-- Source: `gesture_t detect_gesture()`; the first two arguments are the values the
uninitialised locals `up_down_diff`, `left_right_diff` hold on entry. -/
def detect_gesture (up_down_diff left_right_diff : Nat) (bus : I2C1) :
    Option (gesture_t × I2C1) :=
  match detect_gesture_accumulate up_down_diff left_right_diff bus with
  | none => none
  | some (up_down_diff, left_right_diff, bus) =>
    some (detect_gesture_decide up_down_diff left_right_diff, bus)

/-- One entry of the gesture FIFO: the four photodiode bytes. -/
structure FifoEntry where
  u : Nat
  d : Nat
  l : Nat
  r : Nat
  deriving DecidableEq

/-- Bytes delivered while the entries are drained: up, down, left, right of
each entry in turn (the order of the four reads in the loop body). -/
def entryBytes : List FifoEntry → List Nat
  | [] => []
  | e :: es => e.u :: e.d :: e.l :: e.r :: entryBytes es

/-- Bytes the gesture sensor delivers to one call of `detect_gesture`: the FIFO
level (register 0xAE), then the queued entries. -/
def fifoBytes (entries : List FifoEntry) : List Nat :=
  entries.length :: entryBytes entries

/-- The signed sum of `up - down` over the entries, as the specification words it. -/
def spec_updown (entries : List FifoEntry) : Int :=
  (entries.map (fun e => (e.u : Int) - (e.d : Int))).sum

/-- The signed sum of `left - right` over the entries, as the specification words it. -/
def spec_leftright (entries : List FifoEntry) : Int :=
  (entries.map (fun e => (e.l : Int) - (e.r : Int))).sum

/-- The gesture decision as the specification words it, on the signed sums. -/
def spec_gesture (entries : List FifoEntry) : gesture_t :=
  let updown := spec_updown entries
  let leftright := spec_leftright entries
  if |leftright| > |updown| then
    if leftright > 30 then gesture_t.GESTURE_RIGHT
    else if leftright < -30 then gesture_t.GESTURE_LEFT
    else gesture_t.GESTURE_NONE
  else
    if updown > 30 then gesture_t.GESTURE_UP
    else if updown < -30 then gesture_t.GESTURE_DOWN
    else gesture_t.GESTURE_NONE

/-! ## led.h / led.c -/

/-- The GPIO port a line belongs to (`GPIO_TypeDef* port`). -/
inductive GPIO_TypeDef where
  | GPIOA
  | GPIOB
  | GPIOC
  | GPIOD
  | GPIOE
  deriving DecidableEq

/-- Source: `typedef struct { GPIO_TypeDef* port; uint16_t pin; } LEDPin;` -/
structure LEDPin where
  port : GPIO_TypeDef
  pin : Nat
  deriving DecidableEq

/-- Source: `LEDPin getRedPin(int layer, int row, int col)`; the `int` value is stored
in the `uint16_t` field `pin`. -/
def getRedPin (layer row _col : Int) : LEDPin :=
  ⟨GPIO_TypeDef.GPIOC, ((layer * 16 + row) % 65536).toNat⟩

/-- Source: `LEDPin getGreenPin(int layer, int row, int col)` -/
def getGreenPin (layer _row col : Int) : LEDPin :=
  ⟨GPIO_TypeDef.GPIOD, ((layer * 16 + col) % 65536).toNat⟩

/-- Source: `LEDPin getBluePin(int layer, int row, int col)`; the C operator `%` truncates
toward zero, as `Int.tmod` does. -/
def getBluePin (layer row col : Int) : LEDPin :=
  ⟨GPIO_TypeDef.GPIOE, ((Int.tmod (layer * 16 + row + col) 16) % 65536).toNat⟩

/-- One write to a port set/reset register, `port->BSRR = (1U << shift)`.
The shift count is what is recorded: bits 0..15 of BSRR set a pin, bits 16..31
reset a pin, and C defines `1U << shift` only for `shift < 32`. -/
structure BSRRWrite where
  port : GPIO_TypeDef
  shift : Nat
  deriving DecidableEq

/-- Source: `void setLED(int layer, int row, int col, PredominantColor color)`;
the register writes made, in order. -/
def setLED (layer row col : Int) (color : PredominantColor) : List BSRRWrite :=
  let redPin := getRedPin layer row col
  let greenPin := getGreenPin layer row col
  let bluePin := getBluePin layer row col
  [ (if color = PredominantColor.RED then
      BSRRWrite.mk redPin.port redPin.pin
    else
      BSRRWrite.mk redPin.port (redPin.pin + 16)),
    (if color = PredominantColor.GREEN then
      BSRRWrite.mk greenPin.port greenPin.pin
    else
      BSRRWrite.mk greenPin.port (greenPin.pin + 16)),
    (if color = PredominantColor.BLUE then
      BSRRWrite.mk bluePin.port bluePin.pin
    else
      BSRRWrite.mk bluePin.port (bluePin.pin + 16)) ]

/-- Source: `void clearLED(int layer, int row, int col, PredominantColor color)`;
the register writes made, in order. -/
def clearLED (layer row col : Int) (_color : PredominantColor) : List BSRRWrite :=
  let redPin := getRedPin layer row col
  let greenPin := getGreenPin layer row col
  let bluePin := getBluePin layer row col
  [ BSRRWrite.mk redPin.port (redPin.pin + 16),
    BSRRWrite.mk greenPin.port (greenPin.pin + 16),
    BSRRWrite.mk bluePin.port (bluePin.pin + 16) ]

/-- A call made by the animation functions or by the control loop of `main`,
with its arguments (and, for the sensor functions, the value returned). -/
inductive Call where
  | setLED (layer row col : Int) (color : PredominantColor)
  | clearLED (layer row col : Int) (color : PredominantColor)
  | Delay_ms (ms : Nat)
  | TCS34725_ReadColorAndCheck (result : PredominantColor)
  | gesture_data_available (result : Nat)
  | detect_gesture (result : gesture_t)
  deriving DecidableEq

/-- The register writes a logged call makes on the LED ports. -/
def Call.writes : Call → List BSRRWrite
  | Call.setLED layer row col color => LedCube.setLED layer row col color
  | Call.clearLED layer row col color => LedCube.clearLED layer row col color
  | _ => []

/-- Loop `for (int i = start; i < bound; i++) body(i)` with at most `fuel`
iterations: the calls made, in order. -/
def forUpFuel : Nat → Int → Int → (Int → List Call) → List Call
  | 0, _, _, _ => []
  | fuel + 1, i, bound, body =>
    if i < bound then body i ++ forUpFuel fuel (i + 1) bound body else []

/-- Loop `for (int i = start; i < bound; i++) body(i)`; `bound - start`
iterations are enough for the test `i < bound` to fail. -/
def forUp (start bound : Int) (body : Int → List Call) : List Call :=
  forUpFuel (bound - start).toNat start bound body

/-- Loop `for (int i = start; i >= bound; i--) body(i)` with at most `fuel`
iterations: the calls made, in order. -/
def forDownFuel : Nat → Int → Int → (Int → List Call) → List Call
  | 0, _, _, _ => []
  | fuel + 1, i, bound, body =>
    if i ≥ bound then body i ++ forDownFuel fuel (i - 1) bound body else []

/-- Loop `for (int i = start; i >= bound; i--) body(i)`; `start - bound + 1`
iterations are enough for the test `i >= bound` to fail. -/
def forDown (start bound : Int) (body : Int → List Call) : List Call :=
  forDownFuel (start - bound + 1).toNat start bound body

/-- Source: `void displayUpPattern(PredominantColor color)`; the calls made, in order. -/
def displayUpPattern (color : PredominantColor) : List Call :=
  forUp 0 8 (fun layer =>
    forUp 0 8 (fun row =>
      forUp 0 8 (fun col =>
        [Call.setLED layer row col color]))
    ++ [Call.Delay_ms 1000]
    ++ forUp 0 8 (fun row =>
      forUp 0 8 (fun col =>
        [Call.clearLED layer row col color]))
    ++ [Call.Delay_ms 1000])

/-- Source: `void displayDownPattern(PredominantColor color)`; the calls made, in order. -/
def displayDownPattern (color : PredominantColor) : List Call :=
  forDown 7 0 (fun layer =>
    forUp 0 8 (fun row =>
      forUp 0 8 (fun col =>
        [Call.setLED layer row col color]))
    ++ [Call.Delay_ms 1000]
    ++ forUp 0 8 (fun row =>
      forUp 0 8 (fun col =>
        [Call.clearLED layer row col color]))
    ++ [Call.Delay_ms 1000])

/-- Source: `void displayRightPattern(PredominantColor color)`; the calls made, in order. -/
def displayRightPattern (color : PredominantColor) : List Call :=
  forUp 0 8 (fun layer =>
    forUp 0 8 (fun col =>
      forUp 0 8 (fun row =>
        [Call.setLED layer row col color])
      ++ [Call.Delay_ms 1000]
      ++ forUp 0 8 (fun row =>
        [Call.clearLED layer row col color])
      ++ [Call.Delay_ms 1000]))

/-- Source: `void displayLeftPattern(PredominantColor color)`; the calls made, in order. -/
def displayLeftPattern (color : PredominantColor) : List Call :=
  forUp 0 8 (fun layer =>
    forDown 7 0 (fun col =>
      forUp 0 8 (fun row =>
        [Call.setLED layer row col color])
      ++ [Call.Delay_ms 1000]
      ++ forUp 0 8 (fun row =>
        [Call.clearLED layer row col color])
      ++ [Call.Delay_ms 1000]))

/-- The durations of the `Delay_ms` calls of a log, in order. -/
def holds : List Call → List Nat
  | [] => []
  | Call.Delay_ms ms :: rest => ms :: holds rest
  | _ :: rest => holds rest

/-- Replace the layer argument of a `setLED` / `clearLED` call. -/
def Call.mapLayer (f : Int → Int) : Call → Call
  | Call.setLED layer row col color => Call.setLED (f layer) row col color
  | Call.clearLED layer row col color => Call.clearLED (f layer) row col color
  | c => c

/-- Replace the column argument of a `setLED` / `clearLED` call. -/
def Call.mapCol (f : Int → Int) : Call → Call
  | Call.setLED layer row col color => Call.setLED layer row (f col) color
  | Call.clearLED layer row col color => Call.clearLED layer row (f col) color
  | c => c

/-- The indices 0..7 in ascending order. -/
def idx8 : List Int := [0, 1, 2, 3, 4, 5, 6, 7]

/-- The indices 7..0 in descending order. -/
def idx8down : List Int := [7, 6, 5, 4, 3, 2, 1, 0]

/-- One call per voxel of the 8x8 plane of a layer, rows ascending and within
a row columns ascending. -/
def spec_plane (call : Int → Int → Int → PredominantColor → Call) (color : PredominantColor)
    (layer : Int) : List Call :=
  idx8.flatMap (fun row => idx8.map (fun col => call layer row col color))

/-- Plane logic of the vertical sweeps, as the specification words it: the
full 8x8 plane on, hold 1000 ms, the same plane off, hold 1000 ms. -/
def spec_planeBlock (color : PredominantColor) (layer : Int) : List Call :=
  spec_plane Call.setLED color layer ++ [Call.Delay_ms 1000]
    ++ spec_plane Call.clearLED color layer ++ [Call.Delay_ms 1000]

/-- One call per voxel of the 8-row line at a column of a layer, rows ascending. -/
def spec_line (call : Int → Int → Int → PredominantColor → Call) (color : PredominantColor)
    (layer col : Int) : List Call :=
  idx8.map (fun row => call layer row col color)

/-- Line logic of the horizontal sweeps, as the specification words it: the
full 8-row line on, hold 1000 ms, the same line off, hold 1000 ms. -/
def spec_lineBlock (color : PredominantColor) (layer col : Int) : List Call :=
  spec_line Call.setLED color layer col ++ [Call.Delay_ms 1000]
    ++ spec_line Call.clearLED color layer col ++ [Call.Delay_ms 1000]

/-! ## main.c: the control loop -/

/-- Source: `uint8_t gesture_data_available()` (gesture.c). -/
def gesture_data_available (bus : I2C1) : Option (Nat × I2C1) :=
  match read_i2c APDS9960_I2C_ADDRESS APDS9960_GSTATUS bus with
  | none => none
  | some (gstatus, bus) => some (if gstatus &&& 1 ≠ 0 then 1 else 0, bus)

/-- What the control loop acts on: the sensor bus and the log of calls made. -/
structure World where
  bus : I2C1
  log : List Call

/-- The two loop heads of `main`: the top of the body of `while (1)` (line 79)
and the test of `while (color != UNKNOWN)` (line 84) with the value of `color`. -/
inductive Loc where
  | outerLoop
  | innerLoop (color : PredominantColor)
  deriving DecidableEq

/-- The `switch (gesture)` statement of `main` (lines 90-115): the calls made
by the animation chosen; the `default` case plays nothing. -/
def main_switch (gesture : gesture_t) (color : PredominantColor) : List Call :=
  match gesture with
  | gesture_t.GESTURE_UP => displayUpPattern color
  | gesture_t.GESTURE_DOWN => displayDownPattern color
  | gesture_t.GESTURE_LEFT => displayLeftPattern color
  | gesture_t.GESTURE_RIGHT => displayRightPattern color
  | gesture_t.GESTURE_NONE => []

/-- Control of `main` from one loop head to the next one reached (lines 77-123).
`up_down_diff` and `left_right_diff` are the values the uninitialised locals of
`detect_gesture` hold if it is called in this step.  `none`: a bus read never
completes, or `TCS34725_ReadColorAndCheck` ends without a `return` statement,
which leaves `color` without a value. -/
def main_step (up_down_diff left_right_diff : Nat) : Loc → World → Option (Loc × World)
  | Loc.outerLoop, w =>
    match TCS34725_ReadColorAndCheck w.bus with
    | none => none
    | some (none, _) => none
    | some (some color, bus) =>
      some (Loc.innerLoop color,
        ⟨bus, w.log ++ [Call.TCS34725_ReadColorAndCheck color, Call.Delay_ms 1000]⟩)
  | Loc.innerLoop color, w =>
    if color ≠ PredominantColor.UNKNOWN then
      match gesture_data_available w.bus with
      | none => none
      | some (available, bus) =>
        if available ≠ 0 then
          match detect_gesture up_down_diff left_right_diff bus with
          | none => none
          | some (gesture, bus) =>
            -- `break;` on line 118 leaves `while (color != UNKNOWN)`
            some (Loc.outerLoop,
              ⟨bus, w.log ++ [Call.gesture_data_available available,
                  Call.detect_gesture gesture, Call.Delay_ms 1000]
                ++ main_switch gesture color ++ [Call.Delay_ms 1000]⟩)
        else
          some (Loc.innerLoop color,
            ⟨bus, w.log ++ [Call.gesture_data_available available, Call.Delay_ms 2000]⟩)
    else
      some (Loc.outerLoop, w)

/-- Run the control loop of `main` through one loop head per list entry; each
entry gives the values the uninitialised locals of `detect_gesture` hold in
that step. -/
def main_run : List (Nat × Nat) → Loc → World → Option (Loc × World)
  | [], loc, w => some (loc, w)
  | j :: js, loc, w =>
    match main_step j.1 j.2 loc w with
    | none => none
    | some (loc, w) => main_run js loc w

/-- The sensor calls of a log, in order. -/
def sensorCalls : List Call → List Call
  | [] => []
  | Call.TCS34725_ReadColorAndCheck c :: rest => Call.TCS34725_ReadColorAndCheck c :: sensorCalls rest
  | Call.gesture_data_available a :: rest => Call.gesture_data_available a :: sensorCalls rest
  | Call.detect_gesture g :: rest => Call.detect_gesture g :: sensorCalls rest
  | _ :: rest => sensorCalls rest

/-- The bus state a sensor call leaves behind (the given state when the call
never returns). -/
def busAfter {α : Type} (result : Option (α × I2C1)) (bus : I2C1) : I2C1 :=
  match result with
  | some (_, b) => b
  | none => bus

/-- Bus of the witness of the gesture wait loop: gesture status 1, one FIFO
entry (u=0, d=0, l=50, r=0). -/
def busRight : I2C1 :=
  ⟨[1] ++ fifoBytes [⟨0, 0, 50, 0⟩], []⟩

/-- What one BSRR write does to the lines of a 16-pin port. -/
inductive LineEffect where
  /-- Bit `pin` of the set half (bits 0..15): the line is driven high. -/
  | high (port : GPIO_TypeDef) (pin : Nat)
  /-- Bit `pin + 16` of the reset half (bits 16..31): the line is driven low. -/
  | low (port : GPIO_TypeDef) (pin : Nat)
  /-- Shift count of 32 or more: `1U << shift` is not defined by C for the
  32-bit `unsigned`, so neither is the value written. -/
  | undefined
  deriving DecidableEq

/-- The effect of the write `port->BSRR = (1U << shift)`: a shift below 16 sets
that pin, a shift in 16..31 resets pin `shift - 16`, a larger shift is undefined. -/
def BSRRWrite.effect (w : BSRRWrite) : LineEffect :=
  if w.shift < 16 then LineEffect.high w.port w.shift
  else if w.shift < 32 then LineEffect.low w.port (w.shift - 16)
  else LineEffect.undefined

/-! ## Theorems -/

/-! ### Bus-level lemmas -/

/-- The two data bytes of a 16-bit word recombine to the word. -/
theorem word_of_bytes (w : Nat) (hw : w < 65536) :
    ((((w / 256) % 256) <<< 8) ||| ((w % 256) &&& 0xff)) % 65536 = w := by
  have h1 : (w % 256) &&& 0xff = w % 256 := by
    have := Nat.and_pow_two_sub_one_eq_mod (w % 256) 8
    simpa using this
  have h2 : (w / 256) % 256 = w / 256 := Nat.mod_eq_of_lt (by omega)
  have h3 : ((w / 256) <<< 8) ||| (w % 256) = w := by
    rw [Nat.shiftLeft_eq, Nat.mul_comm]
    have := Nat.mul_add_lt_is_or (show w % 256 < 2 ^ 8 by omega) (w / 256)
    rw [← this]
    omega
  rw [h1, h2, h3]
  exact Nat.mod_eq_of_lt hw

/-- A word read consumes two bytes, low byte first, and returns them combined. -/
theorem read_i2c_word_two_bytes (deviceAddr reg lo hi : Nat) (rest : List Nat)
    (tr : List BusOp) :
    ∃ tr2, read_i2c_word deviceAddr reg ⟨lo :: hi :: rest, tr⟩ =
      some ((((hi % 256) <<< 8) ||| ((lo % 256) &&& 0xff)) % 65536, ⟨rest, tr2⟩) := by
  simp [read_i2c_word, i2c_start, emit, recvDR]

/-- A word read from a device delivering the two bytes of `w` returns `w`. -/
theorem read_i2c_word_sample (deviceAddr reg w : Nat) (hw : w < 65536) (rest : List Nat)
    (tr : List BusOp) :
    ∃ tr2, read_i2c_word deviceAddr reg ⟨w % 256 :: w / 256 :: rest, tr⟩ =
      some (w, ⟨rest, tr2⟩) := by
  obtain ⟨tr2, h⟩ := read_i2c_word_two_bytes deviceAddr reg (w % 256) (w / 256) rest tr
  refine ⟨tr2, ?_⟩
  rw [h]
  have := word_of_bytes w hw
  simp only [Nat.mod_mod] at this ⊢
  rw [this]

/-- On a sensor delivering the sample, `TCS34725_ReadColorAndCheck` reduces to
its chain of comparisons on the four sample values. -/
theorem readColorAndCheck_sample (clear red green blue : Nat) (rest : List Nat)
    (tr : List BusOp) (hc : clear < 65536) (hr : red < 65536) (hg : green < 65536)
    (hb : blue < 65536) :
    (TCS34725_ReadColorAndCheck ⟨sampleBytes clear red green blue ++ rest, tr⟩).map Prod.fst =
      some (if clear > 2000 then some PredominantColor.UNKNOWN
        else if red > green ∧ red > blue then some PredominantColor.RED
        else if green > red ∧ green > blue then some PredominantColor.GREEN
        else if blue > red ∧ blue > green then some PredominantColor.BLUE
        else none) := by
  obtain ⟨t1, h1⟩ := read_i2c_word_sample TCS34725_ADDRESS (0x80 ||| TCS34725_CDATAL) clear hc
    ([red % 256, red / 256, green % 256, green / 256, blue % 256, blue / 256] ++ rest) tr
  obtain ⟨t2, h2⟩ := read_i2c_word_sample TCS34725_ADDRESS (0x80 ||| TCS34725_RDATAL) red hr
    ([green % 256, green / 256, blue % 256, blue / 256] ++ rest) t1
  obtain ⟨t3, h3⟩ := read_i2c_word_sample TCS34725_ADDRESS (0x80 ||| TCS34725_GDATAL) green hg
    ([blue % 256, blue / 256] ++ rest) t2
  obtain ⟨t4, h4⟩ := read_i2c_word_sample TCS34725_ADDRESS (0x80 ||| TCS34725_BDATAL) blue hb
    rest t3
  simp only [List.cons_append, List.nil_append] at h1 h2 h3
  simp only [TCS34725_ReadColorAndCheck, sampleBytes, List.cons_append, List.nil_append,
    h1, h2, h3, h4]
  split_ifs <;> rfl

/-- A byte read consumes one byte and returns it truncated to `uint8_t`. -/
theorem read_i2c_one_byte (deviceAddr reg v : Nat) (rest : List Nat) (tr : List BusOp) :
    ∃ tr2, read_i2c deviceAddr reg ⟨v :: rest, tr⟩ = some (v % 256, ⟨rest, tr2⟩) := by
  simp [read_i2c, i2c_start, i2c_stop, emit, recvDR]

/-- With no byte left to receive, a byte read never returns. -/
theorem read_i2c_no_byte (deviceAddr reg : Nat) (tr : List BusOp) :
    read_i2c deviceAddr reg ⟨[], tr⟩ = none := by
  simp [read_i2c, i2c_start, emit, recvDR]

/-- The drain loop over queued entries of bytes: each `uint8_t` accumulator
ends at its initial value plus the signed sum of the differences, reduced
modulo 256. -/
theorem detect_gesture_loop_sums (entries : List FifoEntry)
    (hbytes : ∀ e ∈ entries, e.u < 256 ∧ e.d < 256 ∧ e.l < 256 ∧ e.r < 256)
    (up_down_diff left_right_diff : Nat) (hud : up_down_diff < 256)
    (hlr : left_right_diff < 256) (rest : List Nat) (tr : List BusOp) :
    ∃ tr2, detect_gesture_loop entries.length up_down_diff left_right_diff
        ⟨entryBytes entries ++ rest, tr⟩ =
      some ((((up_down_diff : Int) + spec_updown entries) % 256).toNat,
        (((left_right_diff : Int) + spec_leftright entries) % 256).toNat, ⟨rest, tr2⟩) := by
  induction entries generalizing up_down_diff left_right_diff tr with
  | nil =>
    refine ⟨tr, ?_⟩
    have h1 : (((up_down_diff : Int) + 0) % 256).toNat = up_down_diff := by omega
    have h2 : (((left_right_diff : Int) + 0) % 256).toNat = left_right_diff := by omega
    simp only [List.length_nil, detect_gesture_loop, entryBytes, List.nil_append, spec_updown,
      spec_leftright, List.map_nil, List.sum_nil, h1, h2]
  | cons e es ih =>
    obtain ⟨hu, hd, hl, hr⟩ := hbytes e (List.mem_cons_self e es)
    have hes : ∀ x ∈ es, x.u < 256 ∧ x.d < 256 ∧ x.l < 256 ∧ x.r < 256 :=
      fun x hx => hbytes x (List.mem_cons_of_mem e hx)
    obtain ⟨t1, r1⟩ := read_i2c_one_byte APDS9960_I2C_ADDRESS APDS9960_GFIFO_U e.u
      (e.d :: e.l :: e.r :: (entryBytes es ++ rest)) tr
    obtain ⟨t2, r2⟩ := read_i2c_one_byte APDS9960_I2C_ADDRESS APDS9960_GFIFO_D e.d
      (e.l :: e.r :: (entryBytes es ++ rest)) t1
    obtain ⟨t3, r3⟩ := read_i2c_one_byte APDS9960_I2C_ADDRESS APDS9960_GFIFO_L e.l
      (e.r :: (entryBytes es ++ rest)) t2
    obtain ⟨t4, r4⟩ := read_i2c_one_byte APDS9960_I2C_ADDRESS APDS9960_GFIFO_R e.r
      (entryBytes es ++ rest) t3
    rw [Nat.mod_eq_of_lt hu] at r1
    rw [Nat.mod_eq_of_lt hd] at r2
    rw [Nat.mod_eq_of_lt hl] at r3
    rw [Nat.mod_eq_of_lt hr] at r4
    obtain ⟨t5, r5⟩ := ih hes
      (((up_down_diff : Int) + ((e.u : Int) - (e.d : Int))) % 256).toNat
      (((left_right_diff : Int) + ((e.l : Int) - (e.r : Int))) % 256).toNat
      (by omega) (by omega) t4
    refine ⟨t5, ?_⟩
    simp only [List.length_cons, detect_gesture_loop, entryBytes, List.cons_append, r1, r2, r3,
      r4, r5]
    have e1 : spec_updown (e :: es) = ((e.u : Int) - (e.d : Int)) + spec_updown es := by
      simp [spec_updown]
    have e2 : spec_leftright (e :: es) = ((e.l : Int) - (e.r : Int)) + spec_leftright es := by
      simp [spec_leftright]
    rw [e1, e2]
    generalize spec_updown es = su
    generalize spec_leftright es = sl
    congr 2
    · omega
    · congr 1
      omega

/-- The bytes delivered for a list of entries whose length fits the `uint8_t`
level: `detect_gesture` returns the decision on the two accumulators, each its
initial value plus the signed sum, reduced modulo 256. -/
theorem detect_gesture_sums (entries : List FifoEntry) (hlen : entries.length < 256)
    (hbytes : ∀ e ∈ entries, e.u < 256 ∧ e.d < 256 ∧ e.l < 256 ∧ e.r < 256)
    (up_down_diff left_right_diff : Nat) (hud : up_down_diff < 256)
    (hlr : left_right_diff < 256) (rest : List Nat) (tr : List BusOp) :
    (detect_gesture up_down_diff left_right_diff ⟨fifoBytes entries ++ rest, tr⟩).map Prod.fst =
      some (detect_gesture_decide
        (((up_down_diff : Int) + spec_updown entries) % 256).toNat
        (((left_right_diff : Int) + spec_leftright entries) % 256).toNat) := by
  obtain ⟨t1, r1⟩ := read_i2c_one_byte APDS9960_I2C_ADDRESS 0xAE entries.length
    (entryBytes entries ++ rest) tr
  rw [Nat.mod_eq_of_lt hlen] at r1
  obtain ⟨t2, r2⟩ := detect_gesture_loop_sums entries hbytes up_down_diff left_right_diff
    hud hlr rest t1
  simp only [detect_gesture, detect_gesture_accumulate, fifoBytes, List.cons_append, r1, r2,
    Option.map_some']

/-! ### Colour classification (C1 - C3) -/

/-- C1: for every 16-bit colour sample with clear > 2000,
`TCS34725_ReadColorAndCheck` returns UNKNOWN, whatever red, green and blue are. -/
theorem readColorAndCheck_clear_above_2000 (clear red green blue : Nat) (rest : List Nat)
    (tr : List BusOp) (hc : clear < 65536) (hr : red < 65536) (hg : green < 65536)
    (hb : blue < 65536) (hclear : clear > 2000) :
    (TCS34725_ReadColorAndCheck ⟨sampleBytes clear red green blue ++ rest, tr⟩).map Prod.fst =
      some (some PredominantColor.UNKNOWN) := by
  rw [readColorAndCheck_sample clear red green blue rest tr hc hr hg hb, if_pos hclear]

/-- Witness of C1 at the sample clear = 2001, red = 500, green = 100, blue = 100. -/
theorem readColorAndCheck_clear_above_2000_witness :
    2001 > 2000 ∧
    (TCS34725_ReadColorAndCheck ⟨sampleBytes 2001 500 100 100 ++ [], []⟩).map Prod.fst =
      some (some PredominantColor.UNKNOWN) :=
  ⟨by decide, readColorAndCheck_clear_above_2000 2001 500 100 100 [] [] (by decide)
    (by decide) (by decide) (by decide) (by decide)⟩

/-- C2: for every 16-bit colour sample with clear <= 2000 in which one of red,
green, blue is strictly greater than both others, `TCS34725_ReadColorAndCheck`
returns that channel. -/
theorem readColorAndCheck_strict_maximum (clear red green blue : Nat) (rest : List Nat)
    (tr : List BusOp) (hc : clear < 65536) (hr : red < 65536) (hg : green < 65536)
    (hb : blue < 65536) (hclear : clear ≤ 2000) :
    (red > green ∧ red > blue →
      (TCS34725_ReadColorAndCheck ⟨sampleBytes clear red green blue ++ rest, tr⟩).map Prod.fst =
        some (some PredominantColor.RED)) ∧
    (green > red ∧ green > blue →
      (TCS34725_ReadColorAndCheck ⟨sampleBytes clear red green blue ++ rest, tr⟩).map Prod.fst =
        some (some PredominantColor.GREEN)) ∧
    (blue > red ∧ blue > green →
      (TCS34725_ReadColorAndCheck ⟨sampleBytes clear red green blue ++ rest, tr⟩).map Prod.fst =
        some (some PredominantColor.BLUE)) := by
  rw [readColorAndCheck_sample clear red green blue rest tr hc hr hg hb,
    if_neg (Nat.not_lt.mpr hclear)]
  refine ⟨fun h => ?_, fun h => ?_, fun h => ?_⟩
  · rw [if_pos h]
  · rw [if_neg (by omega), if_pos h]
  · rw [if_neg (by omega), if_neg (by omega), if_pos h]

/-- Witness of C2 at the sample of the specification:
(r=500, g=100, b=100, clear=700) gives RED. -/
theorem readColorAndCheck_strict_maximum_witness :
    700 ≤ 2000 ∧ (500 > 100 ∧ 500 > 100) ∧
    (TCS34725_ReadColorAndCheck ⟨sampleBytes 700 500 100 100 ++ [], []⟩).map Prod.fst =
      some (some PredominantColor.RED) :=
  ⟨by decide, by decide, (readColorAndCheck_strict_maximum 700 500 100 100 [] [] (by decide)
    (by decide) (by decide) (by decide) (by decide)).1 (by decide)⟩

/-- C3: `TCS34725_ReadColorAndCheck` returns a `PredominantColor` if and only
if clear > 2000 or one of red, green, blue is strictly greater than both
others; when clear <= 2000 and the maximum of red, green, blue is attained by
two or more channels, no `return` statement is executed (no result). -/
theorem readColorAndCheck_defined_iff (clear red green blue : Nat) (rest : List Nat)
    (tr : List BusOp) (hc : clear < 65536) (hr : red < 65536) (hg : green < 65536)
    (hb : blue < 65536) :
    ((∃ colour,
        (TCS34725_ReadColorAndCheck ⟨sampleBytes clear red green blue ++ rest, tr⟩).map Prod.fst =
          some (some colour)) ↔
      (clear > 2000 ∨ (red > green ∧ red > blue) ∨ (green > red ∧ green > blue) ∨
        (blue > red ∧ blue > green))) ∧
    (clear ≤ 2000 →
      ((red = max red (max green blue) ∧ green = max red (max green blue)) ∨
       (red = max red (max green blue) ∧ blue = max red (max green blue)) ∨
       (green = max red (max green blue) ∧ blue = max red (max green blue))) →
      (TCS34725_ReadColorAndCheck ⟨sampleBytes clear red green blue ++ rest, tr⟩).map Prod.fst =
        some none) := by
  rw [readColorAndCheck_sample clear red green blue rest tr hc hr hg hb]
  refine ⟨?_, fun hclear htie => ?_⟩
  · split_ifs with h1 h2 h3 h4
    · exact ⟨fun _ => Or.inl h1, fun _ => ⟨_, rfl⟩⟩
    · exact ⟨fun _ => Or.inr (Or.inl h2), fun _ => ⟨_, rfl⟩⟩
    · exact ⟨fun _ => Or.inr (Or.inr (Or.inl h3)), fun _ => ⟨_, rfl⟩⟩
    · exact ⟨fun _ => Or.inr (Or.inr (Or.inr h4)), fun _ => ⟨_, rfl⟩⟩
    · constructor
      · rintro ⟨colour, h⟩
        simp at h
      · rintro (h | h | h | h)
        · exact absurd h h1
        · exact absurd h h2
        · exact absurd h h3
        · exact absurd h h4
  · rw [if_neg (by omega), if_neg (by omega), if_neg (by omega), if_neg (by omega)]

/-- Witness of C3 at the all-zero sample r = g = b = 0, clear = 0: no result. -/
theorem readColorAndCheck_defined_iff_witness :
    (0 : Nat) ≤ 2000 ∧
    (TCS34725_ReadColorAndCheck ⟨sampleBytes 0 0 0 0 ++ [], []⟩).map Prod.fst = some none :=
  ⟨by decide, (readColorAndCheck_defined_iff 0 0 0 0 [] [] (by decide) (by decide) (by decide)
    (by decide)).2 (by decide) (Or.inl ⟨by decide, by decide⟩)⟩

/-! ### Gesture decoding (C4 - C6) -/

/-- C4, evaluated on the code.  One FIFO entry (u=0, d=50, l=0, r=0) has
updown = -50 and leftright = 0: the decision on the signed sums is
GESTURE_DOWN, but `detect_gesture` (accumulators holding 0 on entry) returns
GESTURE_UP, its `uint8_t` accumulator holding 206.  Likewise the entry
(u=0, d=0, l=0, r=50) has leftright = -50: the decision on the signed sums is
GESTURE_LEFT, and `detect_gesture` returns GESTURE_RIGHT. -/
theorem detect_gesture_negative_sums :
    spec_updown [⟨0, 50, 0, 0⟩] = -50 ∧ spec_leftright [⟨0, 50, 0, 0⟩] = 0 ∧
    spec_gesture [⟨0, 50, 0, 0⟩] = gesture_t.GESTURE_DOWN ∧
    (detect_gesture 0 0 ⟨fifoBytes [⟨0, 50, 0, 0⟩], []⟩).map Prod.fst =
      some gesture_t.GESTURE_UP ∧
    spec_gesture [⟨0, 0, 0, 50⟩] = gesture_t.GESTURE_LEFT ∧
    (detect_gesture 0 0 ⟨fifoBytes [⟨0, 0, 0, 50⟩], []⟩).map Prod.fst =
      some gesture_t.GESTURE_RIGHT := by
  decide

/-- C5, evaluated on the code.  With the single FIFO entry (u=40, d=10, l=5,
r=5) the loop adds 30 and 0 to whatever the uninitialised accumulators hold on
entry.  Holding (0, 0) they end at (30, 0) and the result is GESTURE_NONE (the
comparison with the threshold is strict); holding (1, 0) they end at (31, 0)
and the result is GESTURE_UP. -/
theorem detect_gesture_at_threshold :
    (detect_gesture_accumulate 0 0 ⟨fifoBytes [⟨40, 10, 5, 5⟩], []⟩).map
      (fun x => (x.1, x.2.1)) = some (30, 0) ∧
    (detect_gesture 0 0 ⟨fifoBytes [⟨40, 10, 5, 5⟩], []⟩).map Prod.fst =
      some gesture_t.GESTURE_NONE ∧
    (detect_gesture_accumulate 1 0 ⟨fifoBytes [⟨40, 10, 5, 5⟩], []⟩).map
      (fun x => (x.1, x.2.1)) = some (31, 0) ∧
    (detect_gesture 1 0 ⟨fifoBytes [⟨40, 10, 5, 5⟩], []⟩).map Prod.fst =
      some gesture_t.GESTURE_UP := by
  decide

/-- C6, evaluated on the code.  The accumulators are not reset: with FIFO
level 0 and the locals holding (7, 9) on entry, the decision is taken on
(7, 9), not on the sums (0, 0).  They are not the linear sums either: with the
single entry (u=10, d=40, l=0, r=0) and the locals holding (0, 0) on entry,
`up_down_diff` ends at 226 while the sum of `u - d` is -30. -/
theorem detect_gesture_accumulators_not_sums :
    (detect_gesture_accumulate 7 9 ⟨fifoBytes [], []⟩).map
      (fun x => (x.1, x.2.1)) = some (7, 9) ∧
    spec_updown [] = 0 ∧ spec_leftright [] = 0 ∧
    (detect_gesture_accumulate 0 0 ⟨fifoBytes [⟨10, 40, 0, 0⟩], []⟩).map
      (fun x => (x.1, x.2.1)) = some (226, 0) ∧
    spec_updown [⟨10, 40, 0, 0⟩] = -30 ∧ spec_leftright [⟨10, 40, 0, 0⟩] = 0 := by
  decide

/-! ### Bus transactions (C7 - C9) -/

/-- C7: for every pair of received bytes, `read_i2c_word` returns
`low | (high << 8)`, `low` being the first byte received and `high` the
second; the result is in 0..65535. -/
theorem read_i2c_word_low_then_high (deviceAddr reg low high : Nat) (rest : List Nat)
    (tr : List BusOp) (hlow : low < 256) (hhigh : high < 256) :
    (read_i2c_word deviceAddr reg ⟨low :: high :: rest, tr⟩).map Prod.fst =
      some (low ||| (high <<< 8)) ∧
    low ||| (high <<< 8) ≤ 65535 := by
  have hbound : low ||| (high <<< 8) < 2 ^ 16 := by
    apply Nat.or_lt_two_pow
    · omega
    · rw [Nat.shiftLeft_eq]; omega
  obtain ⟨tr2, h⟩ := read_i2c_word_two_bytes deviceAddr reg low high rest tr
  refine ⟨?_, by omega⟩
  have hand : low &&& 0xff = low := by
    have := Nat.and_pow_two_sub_one_eq_mod low 8
    simp only [Nat.reducePow, Nat.add_one_sub_one] at this
    rw [this]; omega
  rw [h, Nat.mod_eq_of_lt hlow, Nat.mod_eq_of_lt hhigh, hand, Nat.lor_comm,
    Nat.mod_eq_of_lt (by omega)]
  rfl

/-- Witness of C7 at the byte sequence of the specification:
(lo=0x34, hi=0x12) decodes to 0x1234. -/
theorem read_i2c_word_low_then_high_witness :
    0x34 < 256 ∧ 0x12 < 256 ∧
    (read_i2c_word TCS34725_ADDRESS (0x80 ||| TCS34725_CDATAL) ⟨[0x34, 0x12], []⟩).map Prod.fst =
      some 0x1234 :=
  ⟨by decide, by decide, (read_i2c_word_low_then_high TCS34725_ADDRESS
    (0x80 ||| TCS34725_CDATAL) 0x34 0x12 [] [] (by decide) (by decide)).1⟩

/-- C8: for every 7-bit device address and register, `read_i2c` performs
exactly: start; address byte `(addr<<1)|0` (= 2*addr), wait ADDR, one read of
SR2; send `reg`, wait TXE; repeated start; address byte `(addr<<1)|1`
(= 2*addr+1), wait ADDR, one read of SR2; clear ACK and set STOP; one blocking
receive of a single byte; stop.  It returns the byte received. -/
theorem read_i2c_sequence (addr reg v : Nat) (rest : List Nat) (tr : List BusOp)
    (haddr : addr < 128) (hv : v < 256) :
    read_i2c addr reg ⟨v :: rest, tr⟩ = some (v, ⟨rest, tr ++
      [BusOp.setSTART, BusOp.waitSR1 I2CFlag.SB,
       BusOp.writeDR ((addr <<< 1) ||| 0), BusOp.waitSR1 I2CFlag.ADDR, BusOp.readSR2,
       BusOp.writeDR reg, BusOp.waitSR1 I2CFlag.TXE,
       BusOp.setSTART, BusOp.waitSR1 I2CFlag.SB,
       BusOp.writeDR ((addr <<< 1) ||| 1), BusOp.waitSR1 I2CFlag.ADDR, BusOp.readSR2,
       BusOp.clearACK, BusOp.setSTOP,
       BusOp.waitSR1 I2CFlag.RXNE, BusOp.readDR v,
       BusOp.setSTOP]⟩) ∧
    (addr <<< 1) ||| 0 = 2 * addr ∧ (addr <<< 1) ||| 1 = 2 * addr + 1 ∧
    2 * addr + 1 < 256 := by
  refine ⟨?_, ?_, ?_, by omega⟩
  · simp [read_i2c, i2c_start, i2c_stop, emit, recvDR, Nat.mod_eq_of_lt hv]
  · rw [Nat.shiftLeft_eq]; simp; omega
  · rw [Nat.shiftLeft_eq, Nat.mul_comm]
    exact (Nat.mul_add_lt_is_or (show 1 < 2 ^ 1 by decide) addr).symm

/-- Witness of C8: reading the gesture status register when the device
delivers 0x01. -/
theorem read_i2c_sequence_witness :
    APDS9960_I2C_ADDRESS < 128 ∧ 0x01 < 256 ∧
    (read_i2c APDS9960_I2C_ADDRESS APDS9960_GSTATUS ⟨[0x01], []⟩).map Prod.fst = some 0x01 :=
  ⟨by decide, by decide, by
    rw [(read_i2c_sequence APDS9960_I2C_ADDRESS APDS9960_GSTATUS 0x01 [] [] (by decide)
      (by decide)).1]
    rfl⟩

/-- C9: for every 7-bit device address, register and data byte, `write_i2c`
performs exactly: start; address byte `(addr<<1)|0` (direction bit 0), wait
ADDR, one read of SR2; send `reg`, wait TXE; send `data`, wait TXE; stop.
There is one start, one stop and one read of SR2. -/
theorem write_i2c_sequence (addr reg data : Nat) (rx : List Nat) (tr : List BusOp)
    (haddr : addr < 128) :
    write_i2c addr reg data ⟨rx, tr⟩ = ⟨rx, tr ++
      [BusOp.setSTART, BusOp.waitSR1 I2CFlag.SB,
       BusOp.writeDR ((addr <<< 1) ||| 0), BusOp.waitSR1 I2CFlag.ADDR, BusOp.readSR2,
       BusOp.writeDR reg, BusOp.waitSR1 I2CFlag.TXE,
       BusOp.writeDR data, BusOp.waitSR1 I2CFlag.TXE,
       BusOp.setSTOP]⟩ ∧
    (write_i2c addr reg data ⟨rx, []⟩).trace.count BusOp.setSTART = 1 ∧
    (write_i2c addr reg data ⟨rx, []⟩).trace.count BusOp.setSTOP = 1 ∧
    (write_i2c addr reg data ⟨rx, []⟩).trace.count BusOp.readSR2 = 1 ∧
    (addr <<< 1) ||| 0 = 2 * addr ∧ 2 * addr < 256 := by
  refine ⟨?_, ?_, ?_, ?_, ?_, by omega⟩
  · simp [write_i2c, i2c_start, i2c_stop, emit]
  · simp [write_i2c, i2c_start, i2c_stop, emit, List.count_cons]
  · simp [write_i2c, i2c_start, i2c_stop, emit, List.count_cons]
  · simp [write_i2c, i2c_start, i2c_stop, emit, List.count_cons]
  · rw [Nat.shiftLeft_eq]; simp; omega

/-- Witness of C9: the first write of `TCS34725_Init`. -/
theorem write_i2c_sequence_witness :
    TCS34725_ADDRESS < 128 ∧
    (write_i2c TCS34725_ADDRESS (0x80 ||| TCS34725_ENABLE) 0x03 ⟨[], []⟩).trace.count
      BusOp.setSTOP = 1 :=
  ⟨by decide, (write_i2c_sequence TCS34725_ADDRESS (0x80 ||| TCS34725_ENABLE) 0x03 [] []
    (by decide)).2.2.1⟩

/-! ### Coordinate mapping (C10) -/

/-- C10, evaluated on the code.  At (layer, row, col) = (1, 0, 0) `getRedPin`
returns pin 16 = layer*16+row, not that value reduced modulo 16 (which is 0);
`getGreenPin` returns layer*16+col = 16 and `getBluePin` returns
(layer*16+row+col) mod 16 = 0. -/
theorem getRedPin_not_reduced :
    (getRedPin 1 0 0).pin = 16 ∧ (1 * 16 + 0) % 16 = 0 ∧
    (getGreenPin 1 0 0).pin = 1 * 16 + 0 ∧
    (getBluePin 1 0 0).pin = (1 * 16 + 0 + 0) % 16 := by
  decide




/-! ### Loop lemmas -/

/-- The counted loop obeys the loop equation of `for (i = start; i < bound; i++)`:
the fuel never runs out before the test fails. -/
theorem forUp_unfold (start bound : Int) (body : Int → List Call) :
    forUp start bound body =
      if start < bound then body start ++ forUp (start + 1) bound body else [] := by
  unfold forUp
  by_cases h : start < bound
  · obtain ⟨n, hn⟩ : ∃ n, (bound - start).toNat = n + 1 := ⟨(bound - start).toNat - 1, by omega⟩
    have hn2 : (bound - (start + 1)).toNat = n := by omega
    rw [hn, hn2, forUpFuel, if_pos h]
  · have hz : (bound - start).toNat = 0 := by omega
    rw [hz, forUpFuel, if_neg h]

/-- The counted loop obeys the loop equation of `for (i = start; i >= bound; i--)`. -/
theorem forDown_unfold (start bound : Int) (body : Int → List Call) :
    forDown start bound body =
      if start ≥ bound then body start ++ forDown (start - 1) bound body else [] := by
  unfold forDown
  by_cases h : start ≥ bound
  · obtain ⟨n, hn⟩ : ∃ n, (start - bound + 1).toNat = n + 1 :=
      ⟨(start - bound + 1).toNat - 1, by omega⟩
    have hn2 : (start - 1 - bound + 1).toNat = n := by omega
    rw [hn, hn2, forDownFuel, if_pos h]
  · have hz : (start - bound + 1).toNat = 0 := by omega
    rw [hz, forDownFuel, if_neg h]

/-- The loop `for (i = 0; i < 8; i++)` runs its body at 0, 1, ..., 7. -/
theorem forUp_0_8 (body : Int → List Call) : forUp 0 8 body = idx8.flatMap body := by
  simp [forUp, forUpFuel, idx8]

/-- The loop `for (i = 7; i >= 0; i--)` runs its body at 7, 6, ..., 0. -/
theorem forDown_7_0 (body : Int → List Call) : forDown 7 0 body = idx8down.flatMap body := by
  simp [forDown, forDownFuel, idx8down]

/-! ### LED lines and voxel writes (C11 - C13) -/

/-- The ports the three line getters return, at every coordinate. -/
theorem getPin_ports (layer row col : Int) :
    (getRedPin layer row col).port = GPIO_TypeDef.GPIOC ∧
    (getGreenPin layer row col).port = GPIO_TypeDef.GPIOD ∧
    (getBluePin layer row col).port = GPIO_TypeDef.GPIOE :=
  ⟨rfl, rfl, rfl⟩

/-- C11, evaluated on the code.  At (layer, row, col) = (0, 0, 0) the port
returned by `getRedPin` is port C (not port A), the port returned by
`getGreenPin` is port D (not port B) and the port returned by `getBluePin` is
port E (not port C). -/
theorem getPin_ports_not_A_B_C :
    (getRedPin 0 0 0).port = GPIO_TypeDef.GPIOC ∧
    (getRedPin 0 0 0).port ≠ GPIO_TypeDef.GPIOA ∧
    (getGreenPin 0 0 0).port = GPIO_TypeDef.GPIOD ∧
    (getGreenPin 0 0 0).port ≠ GPIO_TypeDef.GPIOB ∧
    (getBluePin 0 0 0).port = GPIO_TypeDef.GPIOE ∧
    (getBluePin 0 0 0).port ≠ GPIO_TypeDef.GPIOC := by
  decide

/-- The shift counts of `setLED`: three BSRR writes in the order red, green,
blue, with shift `pin` for the channel equal to the colour and `pin + 16` for
the two others.  Whether a shift is a set bit or a reset bit of the port is
settled by `BSRRWrite.effect`. -/
theorem setLED_writes (layer row col : Int) :
    setLED layer row col PredominantColor.RED =
      [⟨(getRedPin layer row col).port, (getRedPin layer row col).pin⟩,
       ⟨(getGreenPin layer row col).port, (getGreenPin layer row col).pin + 16⟩,
       ⟨(getBluePin layer row col).port, (getBluePin layer row col).pin + 16⟩] ∧
    setLED layer row col PredominantColor.GREEN =
      [⟨(getRedPin layer row col).port, (getRedPin layer row col).pin + 16⟩,
       ⟨(getGreenPin layer row col).port, (getGreenPin layer row col).pin⟩,
       ⟨(getBluePin layer row col).port, (getBluePin layer row col).pin + 16⟩] ∧
    setLED layer row col PredominantColor.BLUE =
      [⟨(getRedPin layer row col).port, (getRedPin layer row col).pin + 16⟩,
       ⟨(getGreenPin layer row col).port, (getGreenPin layer row col).pin + 16⟩,
       ⟨(getBluePin layer row col).port, (getBluePin layer row col).pin⟩] ∧
    (∀ colour, (setLED layer row col colour).length = 3) := by
  refine ⟨?_, ?_, ?_, fun colour => ?_⟩ <;> simp [setLED]

/-- The shift counts of `clearLED`: the same three writes for any colour
argument, each with shift `pin + 16`.  Whether a shift is a reset bit of the
port is settled by `BSRRWrite.effect`. -/
theorem clearLED_writes (layer row col : Int) (c1 c2 : PredominantColor) :
    clearLED layer row col c1 = clearLED layer row col c2 ∧
    clearLED layer row col c1 =
      [⟨(getRedPin layer row col).port, (getRedPin layer row col).pin + 16⟩,
       ⟨(getGreenPin layer row col).port, (getGreenPin layer row col).pin + 16⟩,
       ⟨(getBluePin layer row col).port, (getBluePin layer row col).pin + 16⟩] ∧
    (∀ w ∈ clearLED layer row col c1, 16 ≤ w.shift) := by
  refine ⟨rfl, rfl, ?_⟩
  intro w hw
  simp only [clearLED, List.mem_cons, List.mem_singleton, List.not_mem_nil, or_false] at hw
  rcases hw with h | h | h <;> subst h <;> simp

/-- In layer 0 the writes of `setLED` and `clearLED` are what the line logic
asks for: with RED the red line is driven high and the green and blue lines
low, and `clearLED` drives the three lines low. -/
theorem layer0_effects :
    ∀ row ∈ idx8, ∀ col ∈ idx8,
      (setLED 0 row col PredominantColor.RED).map BSRRWrite.effect =
        [LineEffect.high GPIO_TypeDef.GPIOC row.toNat,
         LineEffect.low GPIO_TypeDef.GPIOD col.toNat,
         LineEffect.low GPIO_TypeDef.GPIOE (row + col).toNat] ∧
      (clearLED 0 row col PredominantColor.RED).map BSRRWrite.effect =
        [LineEffect.low GPIO_TypeDef.GPIOC row.toNat,
         LineEffect.low GPIO_TypeDef.GPIOD col.toNat,
         LineEffect.low GPIO_TypeDef.GPIOE (row + col).toNat] := by
  decide

/-- In the layers 1..7 the red and green shift counts leave their half of the
register: with RED the red write of `setLED` is not a set bit and its green
write is undefined, and the red and green writes of `clearLED` are undefined. -/
theorem upper_layers_effects :
    ∀ layer ∈ [1, 2, 3, 4, 5, 6, 7], ∀ row ∈ idx8, ∀ col ∈ idx8,
      (∀ pin, ((setLED layer row col PredominantColor.RED).map BSRRWrite.effect).head? ≠
        some (LineEffect.high GPIO_TypeDef.GPIOC pin)) ∧
      ((setLED layer row col PredominantColor.RED).map BSRRWrite.effect).tail.head? =
        some LineEffect.undefined ∧
      ((clearLED layer row col PredominantColor.RED).map BSRRWrite.effect).take 2 =
        [LineEffect.undefined, LineEffect.undefined] := by
  intro layer hl row hr col hc
  have h16 : 16 ≤ (getRedPin layer row col).pin := by
    simp only [List.mem_cons, List.mem_singleton, List.not_mem_nil, or_false, idx8] at hl hr
    simp only [getRedPin]
    omega
  have h16g : 16 ≤ (getGreenPin layer row col).pin := by
    simp only [List.mem_cons, List.mem_singleton, List.not_mem_nil, or_false, idx8] at hl hc
    simp only [getGreenPin]
    omega
  refine ⟨fun pin => ?_, ?_, ?_⟩
  · simp only [setLED, if_true, List.map_cons, List.head?_cons, BSRRWrite.effect,
      if_neg (Nat.not_lt.mpr h16)]
    split_ifs <;> simp
  · simp [setLED, BSRRWrite.effect, if_neg (show ¬ (getGreenPin layer row col).pin + 16 < 32 by omega),
      if_neg (show ¬ (getGreenPin layer row col).pin + 16 < 16 by omega)]
  · simp [clearLED, BSRRWrite.effect,
      if_neg (show ¬ (getGreenPin layer row col).pin + 16 < 32 by omega),
      if_neg (show ¬ (getGreenPin layer row col).pin + 16 < 16 by omega),
      if_neg (show ¬ (getRedPin layer row col).pin + 16 < 32 by omega),
      if_neg (show ¬ (getRedPin layer row col).pin + 16 < 16 by omega)]

/-- C12, evaluated on the code.  `setLED(1, 0, 0, RED)` makes three writes with
the shift counts 16, 32, 16.  The write on the red port is bit 16, the reset
bit of pin 0: the red line is driven low, not high.  The write on the green
port shifts by 32, which is undefined, so the green line is not driven low.
Only the blue line is driven as the claim says. -/
theorem setLED_red_line_not_driven_high :
    setLED 1 0 0 PredominantColor.RED =
      [⟨GPIO_TypeDef.GPIOC, 16⟩, ⟨GPIO_TypeDef.GPIOD, 32⟩, ⟨GPIO_TypeDef.GPIOE, 16⟩] ∧
    (setLED 1 0 0 PredominantColor.RED).map BSRRWrite.effect =
      [LineEffect.low GPIO_TypeDef.GPIOC 0, LineEffect.undefined,
       LineEffect.low GPIO_TypeDef.GPIOE 0] ∧
    (∀ e ∈ (setLED 1 0 0 PredominantColor.RED).map BSRRWrite.effect,
      e ≠ LineEffect.high GPIO_TypeDef.GPIOC 0 ∧ e ≠ LineEffect.high GPIO_TypeDef.GPIOC 16) ∧
    LineEffect.low GPIO_TypeDef.GPIOD 0 ∉
      (setLED 1 0 0 PredominantColor.RED).map BSRRWrite.effect := by
  decide

/-- C13, evaluated on the code.  `clearLED(1, 0, 0, c)` makes the same three
writes for every colour argument, with the shift counts 32, 32, 16.  The writes
on the red and green port shift by 32, which is undefined: the red and green
line are not driven low.  Only the blue line is. -/
theorem clearLED_red_green_not_driven_low :
    (∀ c, clearLED 1 0 0 c =
      [⟨GPIO_TypeDef.GPIOC, 32⟩, ⟨GPIO_TypeDef.GPIOD, 32⟩, ⟨GPIO_TypeDef.GPIOE, 16⟩]) ∧
    (∀ c, (clearLED 1 0 0 c).map BSRRWrite.effect =
      [LineEffect.undefined, LineEffect.undefined, LineEffect.low GPIO_TypeDef.GPIOE 0]) ∧
    (∀ c, LineEffect.low GPIO_TypeDef.GPIOC 0 ∉ (clearLED 1 0 0 c).map BSRRWrite.effect ∧
      LineEffect.low GPIO_TypeDef.GPIOD 0 ∉ (clearLED 1 0 0 c).map BSRRWrite.effect) := by
  refine ⟨fun c => ?_, fun c => ?_, fun c => ?_⟩ <;> cases c <;> decide

/-! ### Sweep animations (C14 - C17) -/

/-- Every LED call of a plane block addresses the layer of the block. -/
theorem spec_planeBlock_layer (colour : PredominantColor) (layer : Int) :
    ∀ c ∈ spec_planeBlock colour layer, c.mapLayer (fun _ => layer) = c := by
  intro c hc
  simp only [spec_planeBlock, spec_plane, List.mem_append, List.mem_flatMap, List.mem_map,
    List.mem_singleton] at hc
  rcases hc with ((⟨row, _, col, _, h⟩ | h) | ⟨row, _, col, _, h⟩) | h <;> subst h <;> rfl

/-- Mapping the layer of a plane block gives the plane block of the mapped layer. -/
theorem spec_planeBlock_mapLayer (colour : PredominantColor) (f : Int → Int) (layer : Int) :
    (spec_planeBlock colour layer).map (Call.mapLayer f) = spec_planeBlock colour (f layer) := by
  simp [spec_planeBlock, spec_plane, List.map_flatMap, Call.mapLayer, Function.comp_def]

/-- Mapping the column of a line block gives the line block of the mapped column. -/
theorem spec_lineBlock_mapCol (colour : PredominantColor) (f : Int → Int) (layer col : Int) :
    (spec_lineBlock colour layer col).map (Call.mapCol f) = spec_lineBlock colour layer (f col) := by
  simp [spec_lineBlock, spec_line, Call.mapCol, Function.comp_def]

/-- The holds of a concatenation are the holds of its parts. -/
theorem holds_append (a b : List Call) : holds (a ++ b) = holds a ++ holds b := by
  induction a with
  | nil => rfl
  | cons c rest ih => cases c <;> simp [holds, ih]

/-- A plane block holds twice for 1000 ms. -/
theorem holds_spec_planeBlock (colour : PredominantColor) (layer : Int) :
    holds (spec_planeBlock colour layer) = [1000, 1000] := by
  simp [spec_planeBlock, spec_plane, idx8, holds_append, holds]

/-- A line block holds twice for 1000 ms. -/
theorem holds_spec_lineBlock (colour : PredominantColor) (layer col : Int) :
    holds (spec_lineBlock colour layer col) = [1000, 1000] := by
  simp [spec_lineBlock, spec_line, idx8, holds_append, holds]

/-- The up sweep as plane blocks over the layers 0..7. -/
theorem displayUpPattern_blocks (colour : PredominantColor) :
    displayUpPattern colour = idx8.flatMap (spec_planeBlock colour) := by
  simp only [displayUpPattern, forUp_0_8]
  rfl

/-- The right sweep as line blocks over the layers 0..7 and columns 0..7. -/
theorem displayRightPattern_blocks (colour : PredominantColor) :
    displayRightPattern colour =
      idx8.flatMap (fun layer => idx8.flatMap (fun col => spec_lineBlock colour layer col)) := by
  simp only [displayRightPattern, forUp_0_8]
  rfl

/-- C14: for every colour, `displayUpPattern` makes, for layer = 0, 1, ..., 7
in ascending order: `setLED` on the 64 voxels of the plane of that layer, a
1000 ms hold, `clearLED` on the same 64 voxels, a 1000 ms hold.  A block
addresses no voxel of another layer, and there are 16 holds of 1000 ms
(16000 ms) in total. -/
theorem displayUpPattern_trace (colour : PredominantColor) :
    displayUpPattern colour = [0, 1, 2, 3, 4, 5, 6, 7].flatMap (spec_planeBlock colour) ∧
    (∀ layer, spec_planeBlock colour layer =
      spec_plane Call.setLED colour layer ++ [Call.Delay_ms 1000]
        ++ spec_plane Call.clearLED colour layer ++ [Call.Delay_ms 1000]) ∧
    (∀ layer, (spec_plane Call.setLED colour layer).length = 64 ∧
      (spec_plane Call.clearLED colour layer).length = 64) ∧
    (∀ layer, ∀ c ∈ spec_planeBlock colour layer, c.mapLayer (fun _ => layer) = c) ∧
    holds (displayUpPattern colour) = List.replicate 16 1000 ∧
    (holds (displayUpPattern colour)).sum = 16000 := by
  have hh : holds (displayUpPattern colour) = List.replicate 16 1000 := by
    rw [displayUpPattern_blocks]
    simp [idx8, holds_append, holds_spec_planeBlock]
  refine ⟨displayUpPattern_blocks colour, fun _ => rfl, fun layer => ⟨rfl, rfl⟩,
    spec_planeBlock_layer colour, hh, ?_⟩
  rw [hh]
  rfl

/-- C15: for every colour, `displayDownPattern` visits the layers 7, 6, ..., 0
in descending order with the plane logic of the up sweep; it is the trace of
`displayUpPattern` with each layer l replaced by 7 - l. -/
theorem displayDownPattern_trace (colour : PredominantColor) :
    displayDownPattern colour = [7, 6, 5, 4, 3, 2, 1, 0].flatMap (spec_planeBlock colour) ∧
    displayDownPattern colour =
      (displayUpPattern colour).map (Call.mapLayer (fun l => 7 - l)) := by
  have h : displayDownPattern colour = idx8down.flatMap (spec_planeBlock colour) := by
    simp only [displayDownPattern, forUp_0_8, forDown_7_0]
    rfl
  refine ⟨h, ?_⟩
  rw [h, displayUpPattern_blocks, List.map_flatMap]
  simp only [spec_planeBlock_mapLayer]
  rfl

/-- C16: for every colour, `displayRightPattern` makes, for layer = 0..7
ascending and within a layer for col = 0..7 ascending: `setLED` on the 8 voxels
(layer, row, col), row = 0..7, a 1000 ms hold, `clearLED` on the same 8 voxels,
a 1000 ms hold.  64 lines are swept, with 128 holds of 1000 ms (128000 ms). -/
theorem displayRightPattern_trace (colour : PredominantColor) :
    displayRightPattern colour =
      [0, 1, 2, 3, 4, 5, 6, 7].flatMap (fun layer =>
        [0, 1, 2, 3, 4, 5, 6, 7].flatMap (fun col => spec_lineBlock colour layer col)) ∧
    (∀ layer col, spec_lineBlock colour layer col =
      [0, 1, 2, 3, 4, 5, 6, 7].map (fun row => Call.setLED layer row col colour)
        ++ [Call.Delay_ms 1000]
        ++ [0, 1, 2, 3, 4, 5, 6, 7].map (fun row => Call.clearLED layer row col colour)
        ++ [Call.Delay_ms 1000]) ∧
    (idx8.flatMap (fun layer => idx8.map (fun col => (layer, col)))).length = 64 ∧
    holds (displayRightPattern colour) = List.replicate 128 1000 ∧
    (holds (displayRightPattern colour)).sum = 128000 := by
  have hh : holds (displayRightPattern colour) = List.replicate 128 1000 := by
    rw [displayRightPattern_blocks]
    simp [idx8, holds_append, holds_spec_lineBlock]
  refine ⟨displayRightPattern_blocks colour, fun _ _ => rfl, rfl, hh, ?_⟩
  rw [hh]
  simp

/-- C17: for every colour, `displayLeftPattern` visits, per layer 0..7
ascending, the columns 7, 6, ..., 0 in descending order with the line logic of
the right sweep; it is the trace of `displayRightPattern` with each column c
replaced by 7 - c. -/
theorem displayLeftPattern_trace (colour : PredominantColor) :
    displayLeftPattern colour =
      [0, 1, 2, 3, 4, 5, 6, 7].flatMap (fun layer =>
        [7, 6, 5, 4, 3, 2, 1, 0].flatMap (fun col => spec_lineBlock colour layer col)) ∧
    displayLeftPattern colour =
      (displayRightPattern colour).map (Call.mapCol (fun c => 7 - c)) := by
  have h : displayLeftPattern colour =
      idx8.flatMap (fun layer => idx8down.flatMap (fun col => spec_lineBlock colour layer col)) := by
    simp only [displayLeftPattern, forUp_0_8, forDown_7_0]
    rfl
  refine ⟨h, ?_⟩
  rw [h, displayRightPattern_blocks, List.map_flatMap]
  simp only [List.map_flatMap, spec_lineBlock_mapCol]
  rfl


/-! ### Control loop (C18 - C19) -/

/-- C19 as stated fails.  The sensor delivers a RED sample, gesture status 1,
FIFO level 0 (gesture NONE, animation skipped), then a GREEN sample: the sensor
call after `detect_gesture` is `TCS34725_ReadColorAndCheck`, a new colour
sample, and the step that decodes the gesture does not end at the head of
`while (color != UNKNOWN)` with the colour RED. -/
theorem main_resamples_colour_after_gesture :
    (main_run [(0, 0), (0, 0), (0, 0)] Loc.outerLoop
        ⟨⟨sampleBytes 700 500 100 100 ++ [1] ++ fifoBytes [] ++ sampleBytes 700 100 500 100,
          []⟩, []⟩).map (fun x => (x.1, sensorCalls x.2.log)) =
      some (Loc.innerLoop PredominantColor.GREEN,
        [Call.TCS34725_ReadColorAndCheck PredominantColor.RED,
         Call.gesture_data_available 1,
         Call.detect_gesture gesture_t.GESTURE_NONE,
         Call.TCS34725_ReadColorAndCheck PredominantColor.GREEN]) ∧
    (main_step 0 0 (Loc.innerLoop PredominantColor.RED)
        ⟨⟨[1] ++ fifoBytes [] ++ sampleBytes 700 100 500 100, []⟩, []⟩).map Prod.fst ≠
      some (Loc.innerLoop PredominantColor.RED) := by
  decide

/-- C19, amended: once a colour other than UNKNOWN has been sampled and a
gesture has been decoded (the animation played for UP, DOWN, LEFT, RIGHT and
skipped for NONE), the `break` leaves the gesture wait loop and control is back
at the top of `while (1)`: the next sensor call is a new colour sample
`TCS34725_ReadColorAndCheck`, and the loop then waits for a gesture with the
newly sampled colour.  A gesture poll is repeated with the same colour only
after a poll that found no data. -/
theorem main_gesture_decoded_then_colour_sample (up_down_diff left_right_diff available : Nat)
    (color : PredominantColor) (w : World) (b2 b3 : I2C1) (gesture : gesture_t)
    (hcolor : color ≠ PredominantColor.UNKNOWN)
    (hpoll : gesture_data_available w.bus = some (available, b2)) (havailable : available ≠ 0)
    (hgesture : detect_gesture up_down_diff left_right_diff b2 = some (gesture, b3)) :
    (main_step up_down_diff left_right_diff (Loc.innerLoop color) w).map
        (fun x => (x.1, x.2.bus, x.2.log)) =
      some (Loc.outerLoop, b3,
        w.log ++ [Call.gesture_data_available available, Call.detect_gesture gesture,
            Call.Delay_ms 1000]
          ++ main_switch gesture color ++ [Call.Delay_ms 1000]) ∧
    main_switch gesture_t.GESTURE_NONE color = [] ∧
    main_switch gesture_t.GESTURE_UP color = displayUpPattern color ∧
    main_switch gesture_t.GESTURE_DOWN color = displayDownPattern color ∧
    main_switch gesture_t.GESTURE_LEFT color = displayLeftPattern color ∧
    main_switch gesture_t.GESTURE_RIGHT color = displayRightPattern color ∧
    (∀ (j1 j2 : Nat) (color2 : PredominantColor) (b4 : I2C1),
      TCS34725_ReadColorAndCheck b3 = some (some color2, b4) →
      (main_run [(up_down_diff, left_right_diff), (j1, j2)] (Loc.innerLoop color) w).map
          (fun x => (x.1, x.2.bus, x.2.log)) =
        some (Loc.innerLoop color2, b4,
          w.log ++ [Call.gesture_data_available available, Call.detect_gesture gesture,
              Call.Delay_ms 1000]
            ++ main_switch gesture color ++ [Call.Delay_ms 1000]
            ++ [Call.TCS34725_ReadColorAndCheck color2, Call.Delay_ms 1000])) ∧
    (∀ (w2 : World) (b : I2C1), gesture_data_available w2.bus = some (0, b) →
      (main_step up_down_diff left_right_diff (Loc.innerLoop color) w2).map
          (fun x => (x.1, x.2.bus, x.2.log)) =
        some (Loc.innerLoop color, b,
          w2.log ++ [Call.gesture_data_available 0, Call.Delay_ms 2000])) := by
  refine ⟨?_, rfl, rfl, rfl, rfl, rfl, ?_, ?_⟩
  · simp [main_step, hcolor, hpoll, havailable, hgesture]
  · intro j1 j2 color2 b4 hnext
    simp [main_run, main_step, hcolor, hpoll, havailable, hgesture, hnext]
  · intro w2 b hnone
    simp [main_step, hcolor, hnone]

/-- Witness of C19, amended: colour GREEN, gesture status 1, one FIFO entry
(u=0, d=0, l=50, r=0) decoded as GESTURE_RIGHT with the accumulators holding 0
on entry. -/
theorem main_gesture_decoded_then_colour_sample_witness :
    (main_step 0 0 (Loc.innerLoop PredominantColor.GREEN) ⟨busRight, []⟩).map
        (fun x => (x.1, x.2.log)) =
      some (Loc.outerLoop,
        [] ++ [Call.gesture_data_available 1, Call.detect_gesture gesture_t.GESTURE_RIGHT,
            Call.Delay_ms 1000]
          ++ main_switch gesture_t.GESTURE_RIGHT PredominantColor.GREEN
          ++ [Call.Delay_ms 1000]) := by
  have h := (main_gesture_decoded_then_colour_sample 0 0 1 PredominantColor.GREEN
    ⟨busRight, []⟩
    (busAfter (gesture_data_available busRight) busRight)
    (busAfter (detect_gesture 0 0 (busAfter (gesture_data_available busRight) busRight))
      busRight)
    gesture_t.GESTURE_RIGHT (by decide) rfl (by decide) rfl).1
  cases hstep : main_step 0 0 (Loc.innerLoop PredominantColor.GREEN) ⟨busRight, []⟩ with
  | none => rw [hstep] at h; simp at h
  | some x =>
    rw [hstep] at h
    simp only [Option.map_some', Option.some.injEq, Prod.mk.injEq] at h ⊢
    exact ⟨h.1, h.2.2⟩

/-! ### Shift counts (C20) -/

/-- C20, evaluated on the code.  At (layer, row, col) = (1, 0, 0) `setLED` with
RED shifts by 16 for the red set bit (not below 16) and by 32 for the green
reset bit; `clearLED` shifts by 32 for the red and the green reset bit; at
(7, 7, 7) the red and green reset shifts are 135. -/
theorem setLED_clearLED_shift_out_of_range :
    setLED 1 0 0 PredominantColor.RED =
      [⟨GPIO_TypeDef.GPIOC, 16⟩, ⟨GPIO_TypeDef.GPIOD, 32⟩, ⟨GPIO_TypeDef.GPIOE, 16⟩] ∧
    clearLED 1 0 0 PredominantColor.RED =
      [⟨GPIO_TypeDef.GPIOC, 32⟩, ⟨GPIO_TypeDef.GPIOD, 32⟩, ⟨GPIO_TypeDef.GPIOE, 16⟩] ∧
    clearLED 7 7 7 PredominantColor.RED =
      [⟨GPIO_TypeDef.GPIOC, 135⟩, ⟨GPIO_TypeDef.GPIOD, 135⟩, ⟨GPIO_TypeDef.GPIOE, 30⟩] ∧
    ¬ (∀ w ∈ setLED 1 0 0 PredominantColor.RED, w.shift < 32) := by
  decide

/-! ### Unsigned accumulators (C21) -/

/-- The decision on two `uint8_t` accumulators is never LEFT or DOWN: promoted
to `int` they are not negative, so the tests `< -GESTURE_THRESHOLD` fail. -/
theorem detect_gesture_decide_range (up_down_diff left_right_diff : Nat) :
    detect_gesture_decide up_down_diff left_right_diff = gesture_t.GESTURE_NONE ∨
    detect_gesture_decide up_down_diff left_right_diff = gesture_t.GESTURE_UP ∨
    detect_gesture_decide up_down_diff left_right_diff = gesture_t.GESTURE_RIGHT := by
  have hud : ¬ ((up_down_diff : Int) < -GESTURE_THRESHOLD) := by
    simp only [GESTURE_THRESHOLD]; omega
  have hlr : ¬ ((left_right_diff : Int) < -GESTURE_THRESHOLD) := by
    simp only [GESTURE_THRESHOLD]; omega
  simp only [detect_gesture_decide, if_neg hud, if_neg hlr]
  split_ifs <;> simp

/-- C21: with the accumulators starting at 0, for every FIFO level and every
FIFO content of bytes `detect_gesture` returns, and its result is one of
GESTURE_NONE, GESTURE_UP, GESTURE_RIGHT, never GESTURE_LEFT or GESTURE_DOWN:
it is the decision on the sums reduced modulo 256, which are not negative. -/
theorem detect_gesture_never_left_or_down (entries : List FifoEntry)
    (hlen : entries.length < 256)
    (hbytes : ∀ e ∈ entries, e.u < 256 ∧ e.d < 256 ∧ e.l < 256 ∧ e.r < 256)
    (rest : List Nat) (tr : List BusOp) :
    ∃ gesture,
      (detect_gesture 0 0 ⟨fifoBytes entries ++ rest, tr⟩).map Prod.fst = some gesture ∧
      gesture = detect_gesture_decide ((spec_updown entries % 256).toNat)
        ((spec_leftright entries % 256).toNat) ∧
      (gesture = gesture_t.GESTURE_NONE ∨ gesture = gesture_t.GESTURE_UP ∨
        gesture = gesture_t.GESTURE_RIGHT) ∧
      gesture ≠ gesture_t.GESTURE_LEFT ∧ gesture ≠ gesture_t.GESTURE_DOWN := by
  have h := detect_gesture_sums entries hlen hbytes 0 0 (by decide) (by decide) rest tr
  simp only [Nat.cast_zero, zero_add] at h
  refine ⟨_, h, rfl, detect_gesture_decide_range _ _, ?_, ?_⟩
  · rcases detect_gesture_decide_range ((spec_updown entries % 256).toNat)
      ((spec_leftright entries % 256).toNat) with h1 | h1 | h1 <;> rw [h1] <;> decide
  · rcases detect_gesture_decide_range ((spec_updown entries % 256).toNat)
      ((spec_leftright entries % 256).toNat) with h1 | h1 | h1 <;> rw [h1] <;> decide

/-- Witness of C21 at the entry of the claim: the single FIFO entry (u=10,
d=40, l=0, r=0), whose signed sum is -30, yields GESTURE_UP. -/
theorem detect_gesture_never_left_or_down_witness :
    spec_updown [⟨10, 40, 0, 0⟩] = -30 ∧
    (detect_gesture 0 0 ⟨fifoBytes [⟨10, 40, 0, 0⟩] ++ [], []⟩).map Prod.fst =
      some gesture_t.GESTURE_UP := by
  obtain ⟨gesture, hrun, hdec, _⟩ := detect_gesture_never_left_or_down [⟨10, 40, 0, 0⟩]
    (by decide) (by decide) [] []
  refine ⟨by decide, ?_⟩
  rw [hrun, hdec]
  decide

end LedCube
